import Mathlib

/-!
Verification of the image-batch OCR + question-generation pipeline of the
zyric backend (app/controllers/question_controller.py,
app/routes/question_routes.py, app/schemas/question.py).

The Python code is shallowly embedded: text is `List Char`/`String`, each
uploaded image's OCR capability is a function from attempt number to an
outcome, the LLM is a function from the built prompt payload to its raw
text output, and every fallible operation returns `Except`.
-/

/-! ## Basic string helpers (translations of the Python primitives used) -/

/-- Whitespace characters stripped by Python `str.strip()` (ASCII range). -/
def isPySpace (c : Char) : Bool :=
  c = ' ' || c = '\t' || c = '\n' || c = '\r' || c = Char.ofNat 11 || c = Char.ofNat 12

/-- Python `s.strip()` on a character list. -/
def pyStrip (l : List Char) : List Char :=
  ((l.dropWhile isPySpace).reverse.dropWhile isPySpace).reverse

/-- Does `needle` occur at the start of `hay`? -/
def startsWith : List Char → List Char → Bool
  | [], _ => true
  | _ :: _, [] => false
  | a :: as, b :: bs => a = b && startsWith as bs

/-- Python `needle in hay` substring test. -/
def hasSubstring (needle : List Char) : List Char → Bool
  | [] => needle.isEmpty
  | c :: t => startsWith needle (c :: t) || hasSubstring needle t

/-- ASCII lowering, as applied character-wise by Python `str.lower()`. -/
def toLowerList (l : List Char) : List Char := l.map Char.toLower

/-- Python `s.find(c)`: index of the first occurrence, `none` when absent. -/
def firstIdxOf (l : List Char) (c : Char) : Option Nat :=
  l.findIdx? (fun x => x = c)

/-- Python `s.rfind(c)`: index of the last occurrence, `none` when absent. -/
def lastIdxOf (l : List Char) (c : Char) : Option Nat :=
  match firstIdxOf l.reverse c with
  | some j => some (l.length - 1 - j)
  | none => none

/-- Python slice `l[s:e]` for nonnegative bounds. -/
def pySlice (l : List Char) (s e : Nat) : List Char :=
  (l.drop s).take (e - s)

/-- Python `sep.join(parts)`. -/
def joinSep (sep : String) : List String → String
  | [] => ""
  | [s] => s
  | s :: t :: rest => s ++ sep ++ joinSep sep (t :: rest)

/-- Python `s.split(",")` (keeps empty groups, splits on every comma). -/
def splitOnComma : List Char → List (List Char)
  | [] => [[]]
  | c :: rest =>
    if c = ',' then [] :: splitOnComma rest
    else
      match splitOnComma rest with
      | [] => [[c]]
      | g :: gs => (c :: g) :: gs

/-! ## OCR extraction model (extract_text_from_images) -/

/-- Outcome of one OCR attempt on one image: the extracted text, or the
message of the raised exception. -/
inductive OcrOutcome where
  | ok (text : String)
  | err (msg : String)
  deriving DecidableEq

/-- An uploaded image: its declared MIME type and its OCR capability,
giving the outcome of attempt `n` (0-based) on this image. -/
structure ImageAsset where
  content_type : String
  ocr : Nat → OcrOutcome

/-- Transient-failure test from the source:
`("timeout" in error_msg.lower() or "504" in error_msg)`. -/
def isTransient (msg : String) : Bool :=
  hasSubstring "timeout".data (toLowerList msg.data) || hasSubstring "504".data msg.data

/-- The HTTPException raised when extraction of one image fails: it carries
the 1-based image index and the attempt count (`max_retries = 3`), as in
`f"Error extracting text from image {idx + 1} after {max_retries} attempts"`. -/
structure ExtractionError where
  imageIndex : Nat
  attempts : Nat
  msg : String
  deriving DecidableEq

/-- Observable side effects of the per-image loop body: reading the upload,
the OCR capability call, the `time.sleep(retry_delay)` before a retry, and
`image_file.seek(0)` cursor resets. -/
inductive OcrAction where
  | read
  | ocrCall
  | sleep (secs : Nat)
  | seek0
  deriving DecidableEq

/-- The per-image retry loop `for attempt in range(max_retries)` with
`max_retries = 3` and `retry_delay = 2`, unrolled to its three iterations.
On success the loop records text and resets the cursor; on a transient
error (`isTransient`) with `attempt < max_retries - 1` it sleeps 2 seconds,
resets the cursor and retries; otherwise it raises `ExtractionError` with
the 1-based index `idx1` and `max_retries` as the attempt count. -/
def attemptImage (ocr : Nat → OcrOutcome) (idx1 : Nat) :
    Except ExtractionError (String × List OcrAction) :=
  match ocr 0 with
  | .ok t0 => .ok (t0, [.read, .ocrCall, .seek0])
  | .err m0 =>
    if isTransient m0 then
      match ocr 1 with
      | .ok t1 => .ok (t1, [.read, .ocrCall, .sleep 2, .seek0, .read, .ocrCall, .seek0])
      | .err m1 =>
        if isTransient m1 then
          match ocr 2 with
          | .ok t2 => .ok (t2, [.read, .ocrCall, .sleep 2, .seek0, .read, .ocrCall, .sleep 2,
              .seek0, .read, .ocrCall, .seek0])
          | .err m2 => .error ⟨idx1, 3, m2⟩
        else .error ⟨idx1, 3, m1⟩
    else .error ⟨idx1, 3, m0⟩

/-- One appended element of `all_extracted_text`:
`f"--- Image {idx + 1} ---\n{extracted_text}\n"` (here `k` is already 1-based). -/
def entryString (k : Nat) (t : String) : String :=
  "--- Image " ++ toString k ++ " ---\n" ++ t ++ "\n"

/-- The `for idx, image_file in enumerate(images)` loop: builds the list
`all_extracted_text` in input order, aborting the whole batch on the first
image whose retry loop raises. `idx` is the 0-based index of the head. -/
def extractEntries : List ImageAsset → Nat → Except ExtractionError (List String)
  | [], _ => .ok []
  | img :: rest, idx =>
    match attemptImage img.ocr (idx + 1) with
    | .error e => .error e
    | .ok (t, _) =>
      match extractEntries rest (idx + 1) with
      | .error e => .error e
      | .ok es => .ok (entryString (idx + 1) t :: es)

/-- Translation of `extract_text_from_images`: per-image extraction with retries, then
`"\n".join(all_extracted_text)`. -/
def extract_text_from_images (images : List ImageAsset) : Except ExtractionError String :=
  match extractEntries images 0 with
  | .error e => .error e
  | .ok entries => .ok (joinSep "\n" entries)

/-- An image whose OCR succeeds immediately on every attempt. -/
def okAsset (t : String) : ImageAsset :=
  ⟨"image/png", fun _ => OcrOutcome.ok t⟩

/-! ## JSON values and parsing (translation of `json.loads` on the sliced text) -/

/-- JSON values as produced by `json.loads`; numbers keep their literal
text since no claim computes with them. -/
inductive JVal where
  | jnull
  | jbool (b : Bool)
  | jnum (lit : String)
  | jstr (s : String)
  | jarr (items : List JVal)
  | jobj (fields : List (String × JVal))

/-- JSON insignificant whitespace (RFC 8259: space, tab, LF, CR). -/
def skipWs (l : List Char) : List Char :=
  l.dropWhile (fun c => c = ' ' || c = '\t' || c = '\n' || c = '\r')

/-- Value of one hexadecimal digit. -/
def hexDigit (c : Char) : Option Nat :=
  if '0' ≤ c ∧ c ≤ '9' then some (c.toNat - '0'.toNat)
  else if 'a' ≤ c ∧ c ≤ 'f' then some (c.toNat - 'a'.toNat + 10)
  else if 'A' ≤ c ∧ c ≤ 'F' then some (c.toNat - 'A'.toNat + 10)
  else none

/-- Four hexadecimal digits, for a `\uXXXX` escape. -/
def hex4 : List Char → Option (Nat × List Char)
  | a :: b :: c :: d :: rest =>
    match hexDigit a, hexDigit b, hexDigit c, hexDigit d with
    | some x, some y, some z, some w => some (((x * 16 + y) * 16 + z) * 16 + w, rest)
    | _, _, _, _ => none
  | _ => none

/-- Body of a JSON string after the opening quote: returns the decoded
characters and the rest of the input after the closing quote. Unescaped
control characters are rejected (strict mode, as `json.loads` defaults). -/
def parseStringBody : Nat → List Char → Option (List Char × List Char)
  | 0, _ => none
  | _, [] => none
  | fuel + 1, c :: rest =>
    if c = '"' then some ([], rest)
    else if c = '\\' then
      match rest with
      | [] => none
      | e :: rest2 =>
        let esc : Option (Char × List Char) :=
          if e = '"' then some ('"', rest2)
          else if e = '\\' then some ('\\', rest2)
          else if e = '/' then some ('/', rest2)
          else if e = 'b' then some (Char.ofNat 8, rest2)
          else if e = 'f' then some (Char.ofNat 12, rest2)
          else if e = 'n' then some ('\n', rest2)
          else if e = 'r' then some ('\r', rest2)
          else if e = 't' then some ('\t', rest2)
          else if e = 'u' then (hex4 rest2).map (fun p => (Char.ofNat p.1, p.2))
          else none
        match esc with
        | none => none
        | some (d, r) => (parseStringBody fuel r).map (fun p => (d :: p.1, p.2))
    else if c.toNat < 32 then none
    else (parseStringBody fuel rest).map (fun p => (c :: p.1, p.2))

/-- Integer part of a JSON number: `0` or a nonzero digit followed by digits. -/
def parseIntPart : List Char → Option (List Char × List Char)
  | [] => none
  | c :: rest =>
    if c = '0' then some (['0'], rest)
    else if c.isDigit then
      some (c :: rest.takeWhile Char.isDigit, rest.dropWhile Char.isDigit)
    else none

/-- One or more digits. -/
def parseDigits1 : List Char → Option (List Char × List Char)
  | [] => none
  | c :: rest =>
    if c.isDigit then some (c :: rest.takeWhile Char.isDigit, rest.dropWhile Char.isDigit)
    else none

/-- A JSON number literal: optional minus, integer part, optional fraction,
optional exponent. Returns the literal characters and the rest. -/
def parseNumber (l : List Char) : Option (List Char × List Char) :=
  let (negPart, l1) : List Char × List Char :=
    match l with
    | '-' :: rest => (['-'], rest)
    | _ => ([], l)
  match parseIntPart l1 with
  | none => none
  | some (ip, l2) =>
    let (fracPart, l3) : List Char × List Char :=
      match l2 with
      | '.' :: rest =>
        match parseDigits1 rest with
        | some (ds, r) => ('.' :: ds, r)
        | none => ([], l2)
      | _ => ([], l2)
    if fracPart = [] && (match l2 with | '.' :: _ => true | _ => false) then none
    else
      match l3 with
      | c :: rest =>
        if c = 'e' ∨ c = 'E' then
          let (sgn, r1) : List Char × List Char :=
            match rest with
            | '+' :: r => (['+'], r)
            | '-' :: r => (['-'], r)
            | _ => ([], rest)
          match parseDigits1 r1 with
          | some (ds, r2) => some (negPart ++ ip ++ fracPart ++ c :: (sgn ++ ds), r2)
          | none => none
        else some (negPart ++ ip ++ fracPart, l3)
      | [] => some (negPart ++ ip ++ fracPart, l3)

mutual

/-- A JSON value with leading whitespace allowed; fuel-indexed. -/
def parseValue : Nat → List Char → Option (JVal × List Char)
  | 0, _ => none
  | fuel + 1, input =>
    match skipWs input with
    | [] => none
    | c :: rest =>
      if c = '"' then
        (parseStringBody (rest.length + 1) rest).map (fun p => (JVal.jstr (String.mk p.1), p.2))
      else if c = Char.ofNat 123 then
        match skipWs rest with
        | c2 :: r2 =>
          if c2 = Char.ofNat 125 then some (JVal.jobj [], r2)
          else (parseMembers fuel (skipWs rest)).map (fun p => (JVal.jobj p.1, p.2))
        | [] => none
      else if c = '[' then
        match skipWs rest with
        | c2 :: r2 =>
          if c2 = ']' then some (JVal.jarr [], r2)
          else (parseElems fuel (skipWs rest)).map (fun p => (JVal.jarr p.1, p.2))
        | [] => none
      else if startsWith "true".data (c :: rest) then some (JVal.jbool true, (c :: rest).drop 4)
      else if startsWith "false".data (c :: rest) then some (JVal.jbool false, (c :: rest).drop 5)
      else if startsWith "null".data (c :: rest) then some (JVal.jnull, (c :: rest).drop 4)
      else (parseNumber (c :: rest)).map (fun p => (JVal.jnum (String.mk p.1), p.2))

/-- One or more array elements, consuming the closing `]`. -/
def parseElems : Nat → List Char → Option (List JVal × List Char)
  | 0, _ => none
  | fuel + 1, input =>
    match parseValue fuel input with
    | none => none
    | some (v, r) =>
      match skipWs r with
      | c :: r2 =>
        if c = ',' then (parseElems fuel r2).map (fun p => (v :: p.1, p.2))
        else if c = ']' then some ([v], r2)
        else none
      | [] => none

/-- One or more object members, consuming the closing brace. -/
def parseMembers : Nat → List Char → Option (List (String × JVal) × List Char)
  | 0, _ => none
  | fuel + 1, input =>
    match skipWs input with
    | c :: r =>
      if c = '"' then
        match parseStringBody (r.length + 1) r with
        | none => none
        | some (key, r2) =>
          match skipWs r2 with
          | c2 :: r3 =>
            if c2 = ':' then
              match parseValue fuel r3 with
              | none => none
              | some (v, r4) =>
                match skipWs r4 with
                | c3 :: r5 =>
                  if c3 = ',' then
                    (parseMembers fuel r5).map (fun p => ((String.mk key, v) :: p.1, p.2))
                  else if c3 = Char.ofNat 125 then some ([(String.mk key, v)], r5)
                  else none
                | [] => none
            else none
          | [] => none
      else none
    | [] => none

end

/-- Translation of `json.loads` on a character list: one JSON value, then only trailing
whitespace. -/
def jsonParse (l : List Char) : Option JVal :=
  match parseValue (2 * l.length + 4) l with
  | some (v, rest) => if skipWs rest = [] then some v else none
  | none => none

/-! ## Question schema (app/schemas/question.py) and pydantic coercion -/

/-- The `Question` pydantic model: `question`, `question_type`, `difficulty`
and `subject` are required strings; `options` and `correct_answer` are
optional with default `None`. -/
structure Question where
  question : String
  question_type : String
  options : Option (List String) := none
  correct_answer : Option String := none
  difficulty : String
  subject : String
  deriving DecidableEq

/-- The `QuestionGenerationResponse` pydantic model. -/
structure QuestionGenerationResponse where
  success : Bool
  subject : String
  total_questions : Nat
  questions : List Question
  extracted_text_preview : Option String := none
  deriving DecidableEq

/-- Last-wins field lookup, as building a Python dict from JSON members
keeps the last duplicate key. -/
def getField (fs : List (String × JVal)) (k : String) : Option JVal :=
  match fs.reverse.find? (fun p => p.1 = k) with
  | some p => some p.2
  | none => none

/-- A required `str` field accepts exactly a JSON string. -/
def asStr : JVal → Option String
  | .jstr s => some s
  | _ => none

/-- An `Optional[str]` field: absent or `null` coerce to `None`; a string
is kept; anything else is a validation error. -/
def asOptStr : Option JVal → Option (Option String)
  | none => some none
  | some .jnull => some none
  | some (.jstr s) => some (some s)
  | some _ => none

/-- Every element a JSON string. -/
def allStrings : List JVal → Option (List String)
  | [] => some []
  | .jstr s :: rest => (allStrings rest).map (fun l => s :: l)
  | _ => none

/-- An `Optional[List[str]]` field: absent or `null` coerce to `None`; a
list of strings is kept; anything else is a validation error. -/
def asOptStrList : Option JVal → Option (Option (List String))
  | none => some none
  | some .jnull => some none
  | some (.jarr items) => (allStrings items).map some
  | some _ => none

/-- Translation of `Question(**q)`: coerces one parsed JSON object into a `Question`,
failing when `q` is not an object or a required field is missing or of the
wrong shape. Unknown extra keys are ignored (pydantic default). -/
def coerceQuestion : JVal → Option Question
  | .jobj fs =>
    match (getField fs "question").bind asStr, (getField fs "question_type").bind asStr,
        asOptStrList (getField fs "options"), asOptStr (getField fs "correct_answer"),
        (getField fs "difficulty").bind asStr, (getField fs "subject").bind asStr with
    | some q, some qt, some opts, some ca, some d, some s => some ⟨q, qt, opts, ca, d, s⟩
    | _, _, _, _, _, _ => none
  | _ => none

/-- Translation of `[Question(**q) for q in questions_data]`: the whole comprehension
fails as soon as one element fails to coerce. -/
def coerceAll : List JVal → Option (List Question)
  | [] => some []
  | o :: rest =>
    match coerceQuestion o, coerceAll rest with
    | some q, some qs => some (q :: qs)
    | _, _ => none

/-! ## Question generation (generate_questions_from_content) -/

/-- The failure classes of `generate_questions_from_content`: empty LLM
output, no JSON array found (with a 200-character preview), `json.loads`
failure (with a 300-character preview), and the generic
`"Error generating questions"` handler that catches everything else
(in particular pydantic coercion failures). -/
inductive GenError where
  | emptyResponse
  | malformedOutput (preview : String)
  | jsonParseError (preview : String)
  | generationError
  deriving DecidableEq

/-- The JSON-array extraction of `generate_questions_from_content`:
strip the raw output, fail on empty, locate the first `[` via `find` and
the last `]` via `rfind`, fail with a preview when either is absent,
otherwise `json.loads` the slice `response_text[start_idx:end_idx]`. -/
def extractJsonItems (raw : String) : Except GenError (List JVal) :=
  let rt := pyStrip raw.data
  if rt.isEmpty then .error .emptyResponse
  else
    match firstIdxOf rt '[', lastIdxOf rt ']' with
    | some s, some e =>
      match jsonParse (pySlice rt s (e + 1)) with
      | none => .error (.jsonParseError (String.mk (rt.take 300)))
      | some (.jarr items) => .ok items
      | some _ => .error .generationError
    | _, _ => .error (.malformedOutput (String.mk (rt.take 200)))

/-- Parsing of the raw LLM output into questions: JSON-array extraction
followed by the all-or-nothing coercion of every object. -/
def parseModelOutput (raw : String) : Except GenError (List Question) :=
  match extractJsonItems raw with
  | .error e => .error e
  | .ok items =>
    match coerceAll items with
    | some qs => .ok qs
    | none => .error .generationError

/-- The data that `prompt_template.format_messages` embeds into the
prompt: subject, question count, difficulty, the comma-joined question
types and the content truncated to its first 8000 characters. -/
structure PromptPayload where
  subject : String
  num_questions : Int
  difficulty : String
  question_types : String
  content : String
  deriving DecidableEq

/-- Prompt assembly: `", ".join(question_types)` and `content[:8000]`. -/
def buildPrompt (subject : String) (nq : Int) (difficulty : String)
    (qts : List String) (content : String) : PromptPayload :=
  { subject := subject, num_questions := nq, difficulty := difficulty,
    question_types := joinSep ", " qts,
    content := String.mk (content.data.take 8000) }

/-- Translation of `text_preview = content[:500] + "..." if len(content) > 500 else content`. -/
def textPreview (content : String) : String :=
  if content.data.length > 500 then String.mk (content.data.take 500) ++ "..." else content

/-- Translation of `generate_questions_from_content`: defaults the question types, builds
the prompt, invokes the LLM capability once, parses its output and
assembles the successful `QuestionGenerationResponse` with
`total_questions = len(questions)` and the 500-character preview. -/
def generate_questions_from_content (content subject : String) (nq : Int)
    (difficulty : String) (question_types : Option (List String))
    (llm : PromptPayload → String) : Except GenError QuestionGenerationResponse :=
  let qts := question_types.getD ["multiple_choice", "short_answer", "true_false"]
  let raw := llm (buildPrompt subject nq difficulty qts content)
  match parseModelOutput raw with
  | .error e => .error e
  | .ok qs =>
    .ok { success := true, subject := subject, total_questions := qs.length,
          questions := qs, extracted_text_preview := some (textPreview content) }

/-! ## Pipeline controller and route (process_images_and_generate_questions,
generate_questions route handler) -/

/-- All error classes raised on the pipeline path, controller and route. -/
inductive PipeError where
  | tooFewImagesRoute (n : Nat)
  | invalidQuestionType (t : String)
  | invalidDifficulty (d : String)
  | tooFewImagesCtrl
  | invalidFileType (mime : String)
  | extractionFailed (e : ExtractionError)
  | noContent
  | generationFailed (g : GenError)
  deriving DecidableEq

/-- The input-shape validation failures (HTTP 400 on count, MIME type,
difficulty and question-type checks), as opposed to processing failures. -/
def PipeError.isValidation : PipeError → Bool
  | .tooFewImagesRoute _ => true
  | .invalidQuestionType _ => true
  | .invalidDifficulty _ => true
  | .tooFewImagesCtrl => true
  | .invalidFileType _ => true
  | _ => false

/-- The `valid_types` list of the controller. -/
def valid_image_types : List String :=
  ["image/jpeg", "image/jpg", "image/png", "image/webp"]

/-- The `valid_types` list of the route. -/
def valid_question_types : List String :=
  ["multiple_choice", "short_answer", "true_false"]

/-- The `valid_difficulties` list of the route. -/
def valid_difficulties : List String :=
  ["easy", "medium", "hard"]

/-- Translation of `process_images_and_generate_questions`: image-count check, MIME-type
check over the declared content types in order, extraction, empty-content
check, then generation. -/
def process_images_and_generate_questions (images : List ImageAsset)
    (subject : String) (nq : Int) (difficulty : String)
    (question_types : Option (List String)) (llm : PromptPayload → String) :
    Except PipeError QuestionGenerationResponse :=
  if images.length < 1 then .error .tooFewImagesCtrl
  else
    match (images.map (fun i => i.content_type)).find?
        (fun m => !valid_image_types.contains m) with
    | some m => .error (.invalidFileType m)
    | none =>
      match extract_text_from_images images with
      | .error e => .error (.extractionFailed e)
      | .ok content =>
        if pyStrip content.data = [] then .error .noContent
        else
          match generate_questions_from_content content subject nq difficulty
              question_types llm with
          | .error g => .error (.generationFailed g)
          | .ok r => .ok r

/-- Translation of `types_list = [t.strip() for t in question_types.split(",")] if
question_types else None` of the route. -/
def routeTypesList (qts : String) : Option (List String) :=
  if qts = "" then none
  else some ((splitOnComma qts.data).map (fun g => String.mk (pyStrip g)))

/-- The first invalid entry of `types_list` found by the route's
validation loop, `none` when the loop raises nothing. -/
def routeBadType (qts : String) : Option String :=
  match routeTypesList qts with
  | some ts => ts.find? (fun t => !valid_question_types.contains t)
  | none => none

/-- The `/api/v1/generate-questions` route handler: applies the `Form`
defaults (`num_questions = 10`, `difficulty = "medium"`, the three question
types), requires at least 2 images, splits and strips the comma-separated
question types (an empty string yields `None`, skipping the check),
validates each type and the difficulty, then calls the controller. -/
def generate_questions_route (images : List ImageAsset) (subject : String)
    (num_questions : Option Int) (difficulty : Option String)
    (question_types : Option String) (llm : PromptPayload → String) :
    Except PipeError QuestionGenerationResponse :=
  let nq := num_questions.getD 10
  let diff := difficulty.getD "medium"
  let qts := question_types.getD "multiple_choice,short_answer,true_false"
  if images.length < 2 then .error (.tooFewImagesRoute images.length)
  else
    match routeBadType qts with
    | some bad => .error (.invalidQuestionType bad)
    | none =>
      if !valid_difficulties.contains diff then .error (.invalidDifficulty diff)
      else process_images_and_generate_questions images subject nq diff
        (routeTypesList qts) llm

/-! ## Spec-side description of the successful batch concatenation -/

/-- The entries accumulated by the extraction loop for per-image texts,
first entry numbered `n`. -/
def codeEntries : List String → Nat → List String
  | [], _ => []
  | t :: ts, n => entryString n t :: codeEntries ts (n + 1)

/-- Spec-side description (from the spec's words): the per-image texts in
input order, each prefixed with its human-readable "Image k" marker line,
with k ascending from `n`. -/
def specMarked : List String → Nat → List String
  | [], _ => []
  | t :: ts, n => ("--- Image " ++ toString n ++ " ---\n" ++ t) :: specMarked ts (n + 1)

/-- Spec-side description of the whole batch text: the marker-prefixed
per-image texts with markers ascending from 1, separated by blank lines. -/
def specBatchText (texts : List String) : String :=
  joinSep "\n\n" (specMarked texts 1) ++ "\n"

theorem string_ext (a b : String) (h : a.data = b.data) : a = b := by
  cases a; cases b; simp only at h; rw [h]

theorem extractEntries_allOk (texts : List String) :
    ∀ k, extractEntries (texts.map okAsset) k = .ok (codeEntries texts (k + 1)) := by
  induction texts with
  | nil => intro k; rfl
  | cons t ts ih =>
    intro k
    simp only [List.map, extractEntries, okAsset, attemptImage, codeEntries, ih (k + 1)]

theorem joinSep_code_spec (ts : List String) :
    ∀ (t : String) (n : Nat),
      joinSep "\n" (codeEntries (t :: ts) n) =
        joinSep "\n\n" (specMarked (t :: ts) n) ++ "\n" := by
  induction ts with
  | nil =>
    intro t n
    apply string_ext
    simp [joinSep, codeEntries, specMarked, entryString, String.data_append,
      List.append_assoc]
  | cons t' ts ih =>
    intro t n
    have h := congrArg String.data (ih t' (n + 1))
    apply string_ext
    simp only [codeEntries, specMarked, joinSep, entryString, String.data_append] at h ⊢
    simp [h, String.data_append, List.append_assoc]

/-- C1: for every batch of N ≥ 1 images whose OCR succeeds with the given
per-image texts, `extract_text_from_images` returns exactly the spec-side
concatenation: the texts in input order, each prefixed with its "Image k"
marker for k = 1..N ascending, entries separated by blank lines; the
result is an ordinary successful return even when it is empty or
whitespace-only, and there is one marked entry per image. -/
theorem extract_success_concatenation (texts : List String) (h : texts ≠ []) :
    extract_text_from_images (texts.map okAsset) = .ok (specBatchText texts) ∧
      (specMarked texts 1).length = texts.length := by
  constructor
  · match texts, h with
    | t :: ts, _ =>
      simp only [extract_text_from_images, extractEntries_allOk (t :: ts) 0, specBatchText]
      rw [joinSep_code_spec]
  · clear h
    suffices hgen : ∀ (l : List String) (n : Nat), (specMarked l n).length = l.length by
      exact hgen texts 1
    intro l
    induction l with
    | nil => intro n; rfl
    | cons t ts ih => intro n; simp [specMarked, ih]

/-- Witness for C1 at a concrete two-image batch. -/
theorem extract_success_concatenation_witness :
    extract_text_from_images (["hello", "world"].map okAsset) =
        .ok (specBatchText ["hello", "world"]) ∧
      (specMarked ["hello", "world"] 1).length = (["hello", "world"] : List String).length :=
  extract_success_concatenation ["hello", "world"] (by simp)

/-! ## Retry policy (C2, C6) -/

/-- The action trace of a per-image run that fails transiently `k` times
and then succeeds: every retry is preceded by the fixed 2-second sleep and
a cursor reset, and the successful attempt ends with a cursor reset. -/
def retryTrace : Nat → List OcrAction
  | 0 => [.read, .ocrCall, .seek0]
  | k + 1 => [.read, .ocrCall, .sleep 2, .seek0] ++ retryTrace k

theorem attemptImage_ok_trace (i : Nat) (ocr : Nat → OcrOutcome) (k : Nat) (t : String)
    (hk : k < 3)
    (hfail : ∀ j, j < k → ∃ m, ocr j = .err m ∧ isTransient m = true)
    (hok : ocr k = .ok t) :
    attemptImage ocr i = .ok (t, retryTrace k) := by
  interval_cases k
  · simp [attemptImage, hok, retryTrace]
  · obtain ⟨m0, hm0, htr0⟩ := hfail 0 (by norm_num)
    simp [attemptImage, hm0, htr0, hok, retryTrace]
  · obtain ⟨m0, hm0, htr0⟩ := hfail 0 (by norm_num)
    obtain ⟨m1, hm1, htr1⟩ := hfail 1 (by norm_num)
    simp [attemptImage, hm0, htr0, hm1, htr1, hok, retryTrace]

theorem extractEntries_append_error (a : ImageAsset) (rest : List ImageAsset)
    (e : ExtractionError) :
    ∀ (pre : List String) (k : Nat),
      attemptImage a.ocr (k + pre.length + 1) = .error e →
      extractEntries (pre.map okAsset ++ a :: rest) k = .error e := by
  intro pre
  induction pre with
  | nil =>
    intro k h
    simp only [List.length_nil, Nat.add_zero] at h
    simp [extractEntries, h]
  | cons t ts ih =>
    intro k h
    have h' : attemptImage a.ocr ((k + 1) + ts.length + 1) = .error e := by
      have : (k + 1) + ts.length + 1 = k + (t :: ts).length + 1 := by
        simp [List.length_cons]; omega
      rw [this]; exact h
    have hrec := ih (k + 1) h'
    simp only [List.map_cons, List.cons_append, extractEntries, okAsset, attemptImage,
      List.append_eq]
    rw [hrec]

/-- C2: per image, a transient OCR failure (message containing "timeout"
case-insensitively or "504") is retried up to 3 attempts total, each retry
preceded by the fixed 2-second sleep and a cursor reset (the trace
`retryTrace k`); a non-transient failure, or a failure on the third
attempt, raises the error carrying the image's 1-based index and the
attempt count 3, and any such per-image error aborts the whole batch with
no partial result. -/
theorem extract_retry_policy :
    (∀ (i : Nat) (ocr : Nat → OcrOutcome) (k : Nat) (t : String),
        k < 3 →
        (∀ j, j < k → ∃ m, ocr j = .err m ∧ isTransient m = true) →
        ocr k = .ok t →
        attemptImage ocr i = .ok (t, retryTrace k)) ∧
    (∀ (i k : Nat) (ocr : Nat → OcrOutcome) (m : String),
        k < 3 →
        (∀ j, j < k → ∃ m', ocr j = .err m' ∧ isTransient m' = true) →
        ocr k = .err m →
        isTransient m = false ∨ k = 2 →
        attemptImage ocr i = .error ⟨i, 3, m⟩) ∧
    (∀ (pre : List String) (a : ImageAsset) (rest : List ImageAsset) (e : ExtractionError),
        attemptImage a.ocr (pre.length + 1) = .error e →
        extract_text_from_images (pre.map okAsset ++ a :: rest) = .error e) := by
  refine ⟨?_, ?_, ?_⟩
  · intro i ocr k t hk hfail hok
    exact attemptImage_ok_trace i ocr k t hk hfail hok
  · intro i k ocr m hk hfail herr hcase
    interval_cases k
    · rcases hcase with hnt | h2
      · simp [attemptImage, herr, hnt]
      · omega
    · rcases hcase with hnt | h2
      · obtain ⟨m0, hm0, htr0⟩ := hfail 0 (by norm_num)
        simp [attemptImage, hm0, htr0, herr, hnt]
      · omega
    · obtain ⟨m0, hm0, htr0⟩ := hfail 0 (by norm_num)
      obtain ⟨m1, hm1, htr1⟩ := hfail 1 (by norm_num)
      simp [attemptImage, hm0, htr0, hm1, htr1, herr]
  · intro pre a rest e h
    have h0 : attemptImage a.ocr (0 + pre.length + 1) = .error e := by
      simpa using h
    simp [extract_text_from_images, extractEntries_append_error a rest e pre 0 h0]

/-- An image whose first OCR attempt times out and whose later attempts
succeed. -/
def transThenOk : Nat → OcrOutcome :=
  fun n => if n = 0 then .err "Deadline: timeout" else .ok "txt"

/-- An image whose OCR always fails with a non-transient error. -/
def alwaysBoom : Nat → OcrOutcome := fun _ => .err "boom"

/-- Witness for C2: one retried-then-successful image, one non-transient
failure, and a batch aborted by its second image. -/
theorem extract_retry_policy_witness :
    attemptImage transThenOk 1 = .ok ("txt", retryTrace 1) ∧
      attemptImage alwaysBoom 1 = .error ⟨1, 3, "boom"⟩ ∧
      extract_text_from_images
          (["a"].map okAsset ++ (⟨"image/png", alwaysBoom⟩ : ImageAsset) :: []) =
        .error ⟨2, 3, "boom"⟩ := by
  refine ⟨?_, ?_, ?_⟩
  · exact extract_retry_policy.1 1 transThenOk 1 "txt" (by norm_num)
      (fun j hj => by
        interval_cases j
        exact ⟨"Deadline: timeout", rfl, by decide⟩) rfl
  · exact extract_retry_policy.2.1 1 0 alwaysBoom "boom" (by norm_num)
      (fun j hj => absurd hj (by omega)) rfl (Or.inl (by decide))
  · exact extract_retry_policy.2.2 ["a"] ⟨"image/png", alwaysBoom⟩ [] ⟨2, 3, "boom"⟩ rfl

/-- An OCR capability that eventually succeeds with text `t` within the
3-attempt budget, all earlier attempts failing transiently. -/
def EventuallyOk (f : Nat → OcrOutcome) (t : String) : Prop :=
  ∃ k, k < 3 ∧ (∀ j, j < k → ∃ m, f j = .err m ∧ isTransient m = true) ∧ f k = .ok t

theorem attemptImage_eventuallyOk (f : Nat → OcrOutcome) (t : String) (i : Nat)
    (h : EventuallyOk f t) : ∃ tr, attemptImage f i = .ok (t, tr) := by
  obtain ⟨k, hk, hfail, hok⟩ := h
  exact ⟨retryTrace k, attemptImage_ok_trace i f k t hk hfail hok⟩

theorem extractEntries_eventuallyOk (assets : List ImageAsset) (texts : List String)
    (h : List.Forall₂ (fun a t => EventuallyOk a.ocr t) assets texts) :
    ∀ k, extractEntries assets k = extractEntries (texts.map okAsset) k := by
  induction h with
  | nil => intro k; rfl
  | cons h1 h2 ih =>
    intro k
    obtain ⟨tr, htr⟩ := attemptImage_eventuallyOk _ _ (k + 1) h1
    simp only [extractEntries, List.map_cons]
    rw [htr]
    simp [okAsset, attemptImage, ih (k + 1)]

/-- C6: retry transparency. A batch in which every image's OCR eventually
succeeds (within the 3-attempt budget, after transient failures only)
extracts exactly the same text as a batch in which every image succeeds
immediately with the same per-image texts. -/
theorem retries_transparent_on_success (assets : List ImageAsset) (texts : List String)
    (h : List.Forall₂ (fun a t => EventuallyOk a.ocr t) assets texts) :
    extract_text_from_images assets = extract_text_from_images (texts.map okAsset) := by
  simp [extract_text_from_images, extractEntries_eventuallyOk assets texts h 0]

/-- An image whose OCR times out once and then succeeds. -/
def retryAsset : ImageAsset := ⟨"image/png", transThenOk⟩

/-- Witness for C6: one image that times out once and then yields "txt"
produces the same batch text as an image that yields "txt" immediately. -/
theorem retries_transparent_on_success_witness :
    extract_text_from_images [retryAsset] = extract_text_from_images (["txt"].map okAsset) :=
  retries_transparent_on_success [retryAsset] ["txt"]
    (List.Forall₂.cons
      ⟨1, by norm_num,
        fun j hj => by
          interval_cases j
          exact ⟨"Deadline: timeout", rfl, by decide⟩,
        rfl⟩
      List.Forall₂.nil)

/-! ## Model-output parsing (C3, C5, C10) -/

set_option maxRecDepth 1000000

/-- A raw LLM output with noise before and after one well-formed
single-object JSON array. -/
def noisyOutput : String :=
  "noise[\x7b\"question\":\"Q\",\"question_type\":\"short_answer\",\"correct_answer\":\"A\",\"difficulty\":\"easy\",\"subject\":\"Math\"\x7d]trailing"

/-- The single question carried by `noisyOutput`. -/
def noisyQuestion : Question :=
  ⟨"Q", "short_answer", none, some "A", "easy", "Math"⟩

/-- C3: parsing of the raw model output. After stripping: an empty output
fails with the empty-response error; when the first `[` or the last `]` is
absent, parsing fails with the malformed-output error carrying the first
200 characters; when both are present but the inclusive slice between them
is not valid JSON, parsing fails with the JSON-parse error carrying a
preview of the raw output; and on noise wrapped around one well-formed
single-object JSON array, exactly one `Question` is returned. -/
theorem model_output_parsing :
    (∀ raw : String, pyStrip raw.data = [] →
        parseModelOutput raw = .error .emptyResponse) ∧
    (∀ raw : String, pyStrip raw.data ≠ [] →
        firstIdxOf (pyStrip raw.data) '[' = none ∨ lastIdxOf (pyStrip raw.data) ']' = none →
        parseModelOutput raw =
          .error (.malformedOutput (String.mk ((pyStrip raw.data).take 200)))) ∧
    (∀ (raw : String) (s e : Nat), pyStrip raw.data ≠ [] →
        firstIdxOf (pyStrip raw.data) '[' = some s →
        lastIdxOf (pyStrip raw.data) ']' = some e →
        jsonParse (pySlice (pyStrip raw.data) s (e + 1)) = none →
        parseModelOutput raw =
          .error (.jsonParseError (String.mk ((pyStrip raw.data).take 300)))) ∧
    parseModelOutput noisyOutput = .ok [noisyQuestion] := by
  refine ⟨?_, ?_, ?_, ?_⟩
  · intro raw h
    simp [parseModelOutput, extractJsonItems, h]
  · intro raw h1 h2
    rcases h2 with h2 | h2
    · simp [parseModelOutput, extractJsonItems, h1, h2]
    · cases hf : firstIdxOf (pyStrip raw.data) '[' <;>
        simp [parseModelOutput, extractJsonItems, h1, h2, hf]
  · intro raw s e h1 hs he hp
    simp [parseModelOutput, extractJsonItems, h1, hs, he, hp]
  · rfl

/-- Witness for C3's conditional branches at concrete raw outputs. -/
theorem model_output_parsing_witness :
    parseModelOutput "  " = .error .emptyResponse ∧
      parseModelOutput "hello" =
        .error (.malformedOutput (String.mk ((pyStrip "hello".data).take 200))) ∧
      parseModelOutput "]x[" =
        .error (.jsonParseError (String.mk ((pyStrip "]x[".data).take 300))) := by
  refine ⟨?_, ?_, ?_⟩
  · exact model_output_parsing.1 "  " (by decide)
  · exact model_output_parsing.2.1 "hello" (by decide) (Or.inl (by decide))
  · exact model_output_parsing.2.2.1 "]x[" 2 0 (by decide) (by decide) (by decide) rfl

theorem coerceAll_all_some (items : List JVal)
    (h : ∀ o ∈ items, (coerceQuestion o).isSome = true) :
    ∃ qs, coerceAll items = some qs ∧ qs.length = items.length := by
  induction items with
  | nil => exact ⟨[], rfl, rfl⟩
  | cons o rest ih =>
    obtain ⟨q, hq⟩ := Option.isSome_iff_exists.mp (h o (by simp))
    obtain ⟨qs, hqs, hlen⟩ := ih (fun o' ho' => h o' (by simp [ho']))
    exact ⟨q :: qs, by simp [coerceAll, hq, hqs], by simp [hlen]⟩

theorem coerceAll_none (items : List JVal)
    (h : ∃ o ∈ items, coerceQuestion o = none) :
    coerceAll items = none := by
  induction items with
  | nil => simp at h
  | cons o rest ih =>
    rcases h with ⟨o', ho', hn⟩
    rcases List.mem_cons.mp ho' with rfl | hmem
    · simp [coerceAll, hn]
    · have hrest := ih ⟨o', hmem, hn⟩
      cases hco : coerceQuestion o <;> simp [coerceAll, hco, hrest]

/-- C5: coercing the parsed JSON array into `Question` records is
all-or-nothing. When every object coerces, the call succeeds with one
question per object; when any object fails to coerce (e.g. a missing
required field), the whole call fails and no partial question list is
returned. -/
theorem coercion_all_or_nothing (raw : String) (items : List JVal)
    (h : extractJsonItems raw = .ok items) :
    ((∀ o ∈ items, (coerceQuestion o).isSome = true) →
        ∃ qs, parseModelOutput raw = .ok qs ∧ qs.length = items.length) ∧
      ((∃ o ∈ items, coerceQuestion o = none) →
        parseModelOutput raw = .error .generationError) := by
  constructor
  · intro hall
    obtain ⟨qs, hqs, hlen⟩ := coerceAll_all_some items hall
    exact ⟨qs, by simp [parseModelOutput, h, hqs], hlen⟩
  · intro hsome
    simp [parseModelOutput, h, coerceAll_none items hsome]

/-- A raw output whose single object is missing required fields. -/
def missingFieldOutput : String := "[\x7b\"question\":\"Q\"\x7d]"

/-- The parsed items of `missingFieldOutput`. -/
def missingFieldItems : List JVal := [JVal.jobj [("question", JVal.jstr "Q")]]

/-- A raw output with two complete objects. -/
def twoGoodOutput : String :=
  "[\x7b\"question\":\"Q1\",\"question_type\":\"short_answer\",\"difficulty\":\"easy\",\"subject\":\"M\"\x7d,\x7b\"question\":\"Q2\",\"question_type\":\"true_false\",\"difficulty\":\"easy\",\"subject\":\"M\"\x7d]"

/-- The parsed items of `twoGoodOutput`. -/
def twoGoodItems : List JVal :=
  [JVal.jobj [("question", JVal.jstr "Q1"), ("question_type", JVal.jstr "short_answer"),
     ("difficulty", JVal.jstr "easy"), ("subject", JVal.jstr "M")],
   JVal.jobj [("question", JVal.jstr "Q2"), ("question_type", JVal.jstr "true_false"),
     ("difficulty", JVal.jstr "easy"), ("subject", JVal.jstr "M")]]

/-- Witness for C5: a missing required field fails the whole call, and a
fully coercible array yields one question per object. -/
theorem coercion_all_or_nothing_witness :
    parseModelOutput missingFieldOutput = .error .generationError ∧
      ∃ qs, parseModelOutput twoGoodOutput = .ok qs ∧ qs.length = 2 := by
  constructor
  · exact (coercion_all_or_nothing missingFieldOutput missingFieldItems rfl).2
      ⟨JVal.jobj [("question", JVal.jstr "Q")], by simp [missingFieldItems], rfl⟩
  · exact (coercion_all_or_nothing twoGoodOutput twoGoodItems rfl).1 (by decide)

/-! ## Response assembly (C7) -/

/-- C7: every successful response assembled by
`generate_questions_from_content` has `total_questions` equal to the
length of its question list, and its preview equals the content unchanged
when at most 500 characters, else the first 500 characters with "..."
appended. -/
theorem response_assembly_invariants (content subject : String) (nq : Int)
    (difficulty : String) (qt : Option (List String)) (llm : PromptPayload → String)
    (resp : QuestionGenerationResponse)
    (h : generate_questions_from_content content subject nq difficulty qt llm = .ok resp) :
    resp.total_questions = resp.questions.length ∧
      resp.extracted_text_preview =
        some (if 500 < content.data.length
          then String.mk (content.data.take 500) ++ "..." else content) := by
  simp only [generate_questions_from_content] at h
  cases hp : parseModelOutput (llm (buildPrompt subject nq difficulty
      (qt.getD ["multiple_choice", "short_answer", "true_false"]) content)) with
  | error e => rw [hp] at h; exact absurd h (by simp)
  | ok qs =>
    rw [hp] at h
    simp only [Except.ok.injEq] at h
    subst h
    exact ⟨rfl, by simp [textPreview, gt_iff_lt]⟩

/-- A 600-character content string. -/
def sample600 : String := String.mk (List.replicate 600 'a')

/-- The response assembled for `sample600` when the model returns `[]`. -/
def sampleResp600 : QuestionGenerationResponse :=
  ⟨true, "s", 0, [], some (String.mk (List.replicate 500 'a') ++ "...")⟩

/-- Witness for C7 at a 600-character content: the preview is the first
500 characters plus "...". -/
theorem response_assembly_invariants_witness :
    sampleResp600.total_questions = sampleResp600.questions.length ∧
      sampleResp600.extracted_text_preview =
        some (if 500 < sample600.data.length
          then String.mk (sample600.data.take 500) ++ "..." else sample600) :=
  response_assembly_invariants sample600 "s" 10 "medium" none (fun _ => "[]")
    sampleResp600 rfl

/-! ## Validation before capability calls (C4) -/

/-- All four input validations of the request path: at least 2 images at
the route, every declared MIME type allowed, effective difficulty allowed,
every requested question type allowed. -/
def requestValid (images : List ImageAsset) (difficulty question_types : Option String) :
    Bool :=
  decide (2 ≤ images.length) &&
    (images.map (fun i => i.content_type)).all (fun m => valid_image_types.contains m) &&
    valid_difficulties.contains (difficulty.getD "medium") &&
    (routeBadType (question_types.getD "multiple_choice,short_answer,true_false")).isNone

theorem length_eq_of_map_ct {images images' : List ImageAsset}
    (h : images.map (fun i => i.content_type) = images'.map (fun i => i.content_type)) :
    images.length = images'.length := by
  have h2 := congrArg List.length h
  simpa using h2

theorem process_invalid_behavior (images images' : List ImageAsset) (subject : String)
    (nq : Int) (diff : String) (qt : Option (List String))
    (llm llm' : PromptPayload → String)
    (hbad : images.length < 1 ∨
      (images.map (fun i => i.content_type)).any
        (fun m => !valid_image_types.contains m) = true)
    (hmap : images.map (fun i => i.content_type) = images'.map (fun i => i.content_type)) :
    (∃ e, process_images_and_generate_questions images subject nq diff qt llm = .error e ∧
        e.isValidation = true) ∧
      process_images_and_generate_questions images subject nq diff qt llm =
        process_images_and_generate_questions images' subject nq diff qt llm' := by
  have hlen := length_eq_of_map_ct hmap
  by_cases h1 : images.length < 1
  · have h1' : images'.length < 1 := by omega
    exact ⟨⟨.tooFewImagesCtrl, by simp [process_images_and_generate_questions, h1], rfl⟩,
      by simp [process_images_and_generate_questions, h1, h1']⟩
  · have h1' : ¬ images'.length < 1 := by omega
    have hany : (images.map (fun i => i.content_type)).any
        (fun m => !valid_image_types.contains m) = true := by
      rcases hbad with h | h
      · exact absurd h h1
      · exact h
    have hsome : ((images.map (fun i => i.content_type)).find?
        (fun m => !valid_image_types.contains m)).isSome = true := by
      rw [List.find?_isSome]
      exact List.any_eq_true.mp hany
    obtain ⟨m, hm⟩ := Option.isSome_iff_exists.mp hsome
    have hm' : (images'.map (fun i => i.content_type)).find?
        (fun m => !valid_image_types.contains m) = some m := by
      rw [← hmap]; exact hm
    constructor
    · refine ⟨.invalidFileType m, ?_, rfl⟩
      simp only [process_images_and_generate_questions]
      rw [if_neg h1, hm]
    · simp only [process_images_and_generate_questions]
      rw [if_neg h1, if_neg h1', hm, hm']

/-- C4: every invalid request — fewer images than the minimum, a declared
MIME type outside {jpeg, jpg, png, webp}, a difficulty outside
{easy, medium, hard}, or a question type outside the three allowed ones —
fails with a validation-class error, and the result does not depend on the
OCR or LLM capabilities (only on the declared content types), so no image
decoding or OCR/LLM call can influence it; the same holds at the
controller for its own count and MIME checks. -/
theorem validation_precedes_capability_calls :
    (∀ (images images' : List ImageAsset) (subject : String) (nq : Option Int)
        (diff qts : Option String) (llm llm' : PromptPayload → String),
        requestValid images diff qts = false →
        images.map (fun i => i.content_type) = images'.map (fun i => i.content_type) →
        (∃ e, generate_questions_route images subject nq diff qts llm = .error e ∧
            e.isValidation = true) ∧
          generate_questions_route images subject nq diff qts llm =
            generate_questions_route images' subject nq diff qts llm') ∧
    (∀ (images images' : List ImageAsset) (subject : String) (nq : Int)
        (diff : String) (qt : Option (List String)) (llm llm' : PromptPayload → String),
        (images.length < 1 ∨
          (images.map (fun i => i.content_type)).any
            (fun m => !valid_image_types.contains m) = true) →
        images.map (fun i => i.content_type) = images'.map (fun i => i.content_type) →
        (∃ e, process_images_and_generate_questions images subject nq diff qt llm = .error e ∧
            e.isValidation = true) ∧
          process_images_and_generate_questions images subject nq diff qt llm =
            process_images_and_generate_questions images' subject nq diff qt llm') := by
  constructor
  · intro images images' subject nq diff qts llm llm' hval hmap
    have hlen := length_eq_of_map_ct hmap
    by_cases hl : images.length < 2
    · have hl' : images'.length < 2 := by omega
      refine ⟨⟨.tooFewImagesRoute images.length, ?_, rfl⟩, ?_⟩
      · simp [generate_questions_route, hl]
      · simp [generate_questions_route, hl, hl', hlen]
    · have hl' : ¬ images'.length < 2 := by omega
      cases hbt : routeBadType (qts.getD "multiple_choice,short_answer,true_false") with
      | some bad =>
        refine ⟨⟨.invalidQuestionType bad, ?_, rfl⟩, ?_⟩
        · simp [generate_questions_route, hl, hbt]
        · simp [generate_questions_route, hl, hl', hbt]
      | none =>
        by_cases hd : (diff.getD "medium") ∈ valid_difficulties
        · have h2le : 2 ≤ images.length := by omega
          have hdec : decide (2 ≤ images.length) = true := decide_eq_true h2le
          have hdc : valid_difficulties.contains (diff.getD "medium") = true := by
            simp [hd]
          have hall : (images.map (fun i => i.content_type)).all
              (fun m => valid_image_types.contains m) = false := by
            simp only [requestValid, hdec, hdc, hbt, Option.isNone_none, Bool.true_and,
              Bool.and_true] at hval
            exact hval
          have hmime : (images.map (fun i => i.content_type)).any
              (fun m => !valid_image_types.contains m) = true := by
            obtain ⟨m, hmem, hpm⟩ := List.all_eq_false.mp hall
            have hfalse : valid_image_types.contains m = false := by
              cases hx2 : valid_image_types.contains m
              · rfl
              · exact absurd hx2 hpm
            refine List.any_eq_true.mpr ⟨m, hmem, ?_⟩
            rw [hfalse]; rfl
          have hp := process_invalid_behavior images images' subject (nq.getD 10)
            (diff.getD "medium")
            (routeTypesList (qts.getD "multiple_choice,short_answer,true_false"))
            llm llm' (Or.inr hmime) hmap
          refine ⟨?_, ?_⟩
          · obtain ⟨e, he, hv⟩ := hp.1
            refine ⟨e, ?_, hv⟩
            simpa [generate_questions_route, hl, hbt, hd] using he
          · simpa [generate_questions_route, hl, hl', hbt, hd] using hp.2
        · refine ⟨⟨.invalidDifficulty (diff.getD "medium"), ?_, rfl⟩, ?_⟩
          · simp [generate_questions_route, hl, hbt, hd]
          · simp [generate_questions_route, hl, hl', hbt, hd]
  · intro images images' subject nq diff qt llm llm' hbad hmap
    exact process_invalid_behavior images images' subject nq diff qt llm llm' hbad hmap

/-- Witness for C4: an invalid difficulty at the route and an empty batch
at the controller, under two different LLM capabilities. -/
theorem validation_precedes_capability_calls_witness :
    ((∃ e, generate_questions_route [okAsset "x", okAsset "x"] "Math" none
          (some "impossible") none (fun _ => "[]") = .error e ∧ e.isValidation = true) ∧
      generate_questions_route [okAsset "x", okAsset "x"] "Math" none
          (some "impossible") none (fun _ => "[]") =
        generate_questions_route [okAsset "x", okAsset "x"] "Math" none
          (some "impossible") none (fun _ => "[7]")) ∧
    ((∃ e, process_images_and_generate_questions [] "Math" 10 "medium" none
          (fun _ => "[]") = .error e ∧ e.isValidation = true) ∧
      process_images_and_generate_questions [] "Math" 10 "medium" none (fun _ => "[]") =
        process_images_and_generate_questions [] "Math" 10 "medium" none (fun _ => "[7]")) := by
  constructor
  · exact validation_precedes_capability_calls.1 [okAsset "x", okAsset "x"]
      [okAsset "x", okAsset "x"] "Math" none (some "impossible") none
      (fun _ => "[]") (fun _ => "[7]") (by decide) rfl
  · exact validation_precedes_capability_calls.2 [] [] "Math" 10 "medium" none
      (fun _ => "[]") (fun _ => "[7]") (Or.inl (by decide)) rfl

/-! ## The options/type invariant is not enforced (C8) -/

/-- A model output whose single object is a short-answer question that
nevertheless carries four labeled options. -/
def violatingOutput : String :=
  "[\x7b\"question\":\"Q\",\"question_type\":\"short_answer\",\"options\":[\"A. x\",\"B. y\",\"C. z\",\"D. w\"],\"correct_answer\":\"A\",\"difficulty\":\"easy\",\"subject\":\"Math\"\x7d]"

/-- Counterexample to C8: the generate path accepts and returns a question
whose `question_type` is not `multiple_choice` but whose `options` field is
present — the claimed invariant does not hold for every produced record. -/
theorem options_invariant_counterexample :
    parseModelOutput violatingOutput =
        .ok [⟨"Q", "short_answer", some ["A. x", "B. y", "C. z", "D. w"],
          some "A", "easy", "Math"⟩] ∧
      ("short_answer" ≠ "multiple_choice" ∧
        (some ["A. x", "B. y", "C. z", "D. w"] : Option (List String)) ≠ none) :=
  ⟨rfl, by decide⟩

/-- A model output whose single object is a multiple-choice question with
no options at all. -/
def mcNoOptionsOutput : String :=
  "[\x7b\"question\":\"Q\",\"question_type\":\"multiple_choice\",\"difficulty\":\"easy\",\"subject\":\"M\"\x7d]"

/-- C8 amended: the schema does not enforce the options/type invariant.
`options` is optional with default null — an object without the key
coerces to a question with `options = none` — and any combination the
model produces is accepted, including a multiple-choice question with no
options. -/
theorem options_not_enforced :
    (∀ (fs : List (String × JVal)) (q : Question),
        coerceQuestion (.jobj fs) = some q → getField fs "options" = none →
        q.options = none) ∧
      (∃ q, parseModelOutput mcNoOptionsOutput = .ok [q] ∧
        q.question_type = "multiple_choice" ∧ q.options = none) := by
  constructor
  · intro fs q hq hnone
    simp only [coerceQuestion] at hq
    split at hq
    · rename_i q1 qt1 opts1 ca1 d1 s1 h1 h2 h3 h4 h5 h6
      rw [hnone] at h3
      simp only [asOptStrList] at h3
      injection h3 with h3
      injection hq with hq
      rw [← hq, ← h3]
    · exact absurd hq (by simp)
  · exact ⟨⟨"Q", "multiple_choice", none, none, "easy", "M"⟩, rfl, rfl, rfl⟩

/-- Witness for the amended C8 at a complete object lacking the options
key. -/
theorem options_not_enforced_witness :
    (⟨"Q", "short_answer", none, some "A", "easy", "M"⟩ : Question).options = none :=
  options_not_enforced.1
    [("question", JVal.jstr "Q"), ("question_type", JVal.jstr "short_answer"),
      ("correct_answer", JVal.jstr "A"), ("difficulty", JVal.jstr "easy"),
      ("subject", JVal.jstr "M")]
    ⟨"Q", "short_answer", none, some "A", "easy", "M"⟩ rfl rfl

/-! ## numQuestions is not range-checked (C9) -/

/-- An image whose OCR immediately yields "hello". -/
def pngOk : ImageAsset := ⟨"image/png", fun _ => OcrOutcome.ok "hello"⟩

/-- C9 divergence witness: a request with `num_questions = 100`, outside
the documented [1, 50] range, is not rejected — the pipeline proceeds all
the way to generation and succeeds; and an omitted `num_questions`
behaves exactly as the default 10. -/
theorem num_questions_range_not_enforced :
    generate_questions_route [pngOk, pngOk] "Math" (some 100) none none (fun _ => "[]") =
        .ok ⟨true, "Math", 0, [],
          some "--- Image 1 ---\nhello\n\n--- Image 2 ---\nhello\n"⟩ ∧
      (∀ (images : List ImageAsset) (subject : String) (diff qts : Option String)
          (llm : PromptPayload → String),
          generate_questions_route images subject none diff qts llm =
            generate_questions_route images subject (some 10) diff qts llm) :=
  ⟨rfl, fun _ _ _ _ _ => rfl⟩

/-! ## Any question count from the model is accepted (C10) -/

/-- C10: the parsing path never compares the produced question count with
the requested `num_questions` — with the model output held fixed, the
result is identical for any two requested counts — and an empty JSON
array output succeeds with `success = true`, `total_questions = 0` and an
empty question list. -/
theorem empty_array_output_accepted :
    (∀ (content subject : String) (nq nq' : Int) (difficulty : String)
        (qt : Option (List String)) (raw : String),
        generate_questions_from_content content subject nq difficulty qt (fun _ => raw) =
          generate_questions_from_content content subject nq' difficulty qt (fun _ => raw)) ∧
      (∀ (content subject : String) (nq : Int) (difficulty : String)
          (qt : Option (List String)),
          generate_questions_from_content content subject nq difficulty qt (fun _ => "[]") =
            .ok ⟨true, subject, 0, [], some (textPreview content)⟩) :=
  ⟨fun _ _ _ _ _ _ _ => rfl, fun _ _ _ _ _ => rfl⟩

